import Mathlib

/-!
Verification of the harvard-brainstem ingestion pipeline.

The repository has three script variants:
* `src/ingest_harvard.py` — the database variant: RSS feed → AI analysis →
  Supabase upsert, with environment validation, per-item error handling and
  a final summary.
* `src/pipeline.py` — a blob variant: RSS feed → download PDFs → upload to
  an Azure blob container with `overwrite=True`.
* `src/.github/workflows/scripts/dash_ingest.py` — a blob variant with a
  sink existence check: skip a PDF whose blob name already exists, else
  download and upload only on HTTP status 200.

Python strings are embedded as `List Char` (one element per code point, so
Python `len`/slicing corresponds to `List.length`/`List.take`).  External
collaborators (feed parser, HTTP fetcher, AI completion, Supabase client,
blob container) are parameters of the run functions; the run functions
themselves are translated line by line from the scripts.
-/

/-- Code points of a string literal; Python `str` values are `List Char`. -/
def chars (s : String) : List Char := s.data

/-- Python `str.strip()`: drop whitespace from both ends. -/
def pyStrip (s : List Char) : List Char :=
  ((s.dropWhile Char.isWhitespace).reverse.dropWhile Char.isWhitespace).reverse

/-- Python `url.split("/")[-1]`: the segment after the last slash
(the whole string when there is no slash). -/
def lastSegment (u : List Char) : List Char :=
  (u.reverse.takeWhile (fun c => !(c = '/'))).reverse

/-! ## Database variant: `src/ingest_harvard.py` -/

/-- One `feedparser` entry as read by `fetch_harvard_papers`
(`entry.get(k, default)`: every field is optional). -/
structure Entry where
  title : Option (List Char)
  link : Option (List Char)
  summary : Option (List Char)
  published : Option (List Char)
  author : Option (List Char)
  id : Option (List Char)
deriving DecidableEq

/-- The paper dict built in `fetch_harvard_papers` (lines 82-89). -/
structure Paper where
  title : List Char
  link : List Char
  summary : List Char
  published : List Char
  authors : List Char
  id : List Char
deriving DecidableEq

/-- `ingest_harvard.py` lines 82-89: defaults `"Untitled"`, `""`, `"Unknown"`,
and `id = entry.get("id", entry.get("link", ""))`. -/
def paperOfEntry (e : Entry) : Paper :=
  { title := e.title.getD (chars ("Untitled")),
    link := e.link.getD [],
    summary := e.summary.getD [],
    published := e.published.getD [],
    authors := e.author.getD (chars ("Unknown")),
    id := e.id.getD (e.link.getD []) }

/-- `MAX_PAPERS_PER_RUN = 10` (`ingest_harvard.py` line 39). -/
def MAX_PAPERS_PER_RUN : Nat := 10

/-- `MAX_TEXT_LENGTH = 8000` (`ingest_harvard.py` line 40). -/
def MAX_TEXT_LENGTH : Nat := 8000

/-- `DASH_RSS_FEED` (`ingest_harvard.py` line 28). -/
def DASH_RSS_FEED : List Char := chars ("https://dash.harvard.edu/feed/rss_1.0/site")

/-- The four environment variables read at module load
(`ingest_harvard.py` lines 31-36); `none` means the variable is unset. -/
structure Env where
  AZURE_AI_ENDPOINT : Option (List Char)
  AZURE_AI_KEY : Option (List Char)
  SUPABASE_URL : Option (List Char)
  SUPABASE_KEY : Option (List Char)
deriving DecidableEq

/-- Python truthiness test `if not value` on an optional string:
`None` and the empty string are falsy. -/
def falsy : Option (List Char) → Bool
  | none => true
  | some s => s.isEmpty

/-- `validate_environment` (`ingest_harvard.py` lines 46-62): true iff no
required variable is missing, where `missing` collects falsy values. -/
def validate_environment (env : Env) : Bool :=
  !(falsy env.AZURE_AI_ENDPOINT || falsy env.AZURE_AI_KEY ||
    falsy env.SUPABASE_URL || falsy env.SUPABASE_KEY)

/-- A value of the parsed AI-analysis dict: a string or a list of strings. -/
inductive JVal
  | str (s : List Char)
  | arr (l : List (List Char))
deriving DecidableEq

/-- The analysis dict (`json.loads` result, or the substituted default). -/
def JDict := List (String × JVal)

/-- Python `d.get(k, default)` for a string-valued key.  (When the stored
value is not a string the typed model falls back to the default; the source
would carry the raw value through, which no claim depends on.) -/
def JDict.getStr (d : JDict) (k : String) (dflt : List Char) : List Char :=
  match d.find? (fun kv => kv.1 == k) with
  | some (_, JVal.str s) => s
  | _ => dflt

/-- Python `d.get(k, default)` for a list-valued key. -/
def JDict.getArr (d : JDict) (k : String) (dflt : List (List Char)) : List (List Char) :=
  match d.find? (fun kv => kv.1 == k) with
  | some (_, JVal.arr l) => l
  | _ => dflt

/-- The fallback dict built on `json.JSONDecodeError`
(`ingest_harvard.py` lines 152-160). -/
def defaultAnalysis (analysis_text : List Char) : JDict :=
  [(("topic"), JVal.str (chars ("Academic Research"))),
   (("findings"), JVal.arr [analysis_text.take 200]),
   (("methodology"), JVal.str (chars ("See summary"))),
   (("significance"), JVal.str (analysis_text.take 300)),
   (("keywords"), JVal.arr [chars ("research"), chars ("Harvard"), chars ("academic")])]

/-- The summary component of the text sent to the AI:
`paper['summary'][:MAX_TEXT_LENGTH]` (`ingest_harvard.py` line 121). -/
def ai_summary (p : Paper) : List Char := p.summary.take MAX_TEXT_LENGTH

/-- `text_to_analyze` (`ingest_harvard.py` lines 115-122). -/
def text_to_analyze (p : Paper) : List Char :=
  chars ("\nTitle: ") ++ p.title ++ chars ("\nAuthors: ") ++ p.authors ++
  chars ("\nPublished: ") ++ p.published ++ chars ("\n\nSummary:\n") ++
  ai_summary p ++ chars ("\n")

/-- Outcome of the Supabase upsert call in `store_in_supabase`:
the call raised, returned no data, or returned data. -/
inductive StoreOutcome
  | ok
  | noData
  | raise
deriving DecidableEq

/-- The external collaborators of `ingest_harvard.py`, as result oracles:
the feed parse (`Except.error` = the `try` in `fetch_harvard_papers`
catches an exception), the AI completion per request text, the JSON parse
of the (stripped) AI response (`none` = `json.JSONDecodeError`), the
Supabase call outcome, and the `datetime.utcnow().isoformat()` value. -/
structure Oracles where
  feed : Except String (List Entry)
  ai : List Char → Except String (List Char)
  parse : List Char → Option JDict
  storeOutcome : Paper → JDict → StoreOutcome
  now : List Char

/-- `fetch_harvard_papers` (`ingest_harvard.py` lines 68-97): exception or
empty feed gives `[]`, else the first `MAX_PAPERS_PER_RUN` entries become
papers, in feed order. -/
def fetch_harvard_papers (feedResult : Except String (List Entry)) : List Paper :=
  match feedResult with
  | Except.error _ => []
  | Except.ok entries =>
    if entries.isEmpty then []
    else (entries.take MAX_PAPERS_PER_RUN).map paperOfEntry

/-- `analyze_paper_with_ai` (`ingest_harvard.py` lines 103-169): any
exception from the AI call gives `None`; a response that does not parse as
JSON is replaced by `defaultAnalysis` of the stripped response text.
(The OpenAI client construction of lines 109-112 has no observable effect
in the model.) -/
def analyze_paper_with_ai (o : Oracles) (paper : Paper) : Option JDict :=
  match o.ai (text_to_analyze paper) with
  | Except.error _ => none
  | Except.ok content =>
    let analysis_text := pyStrip content
    match o.parse analysis_text with
    | some analysis => some analysis
    | none => some (defaultAnalysis analysis_text)

/-- The fixed `metadata` map of `store_in_supabase` (lines 198-202). -/
structure MetaInfo where
  feed_url : List Char
  processed_by : List Char
  ai_model : List Char
deriving DecidableEq

/-- The row upserted into `harvard_papers` (`ingest_harvard.py` lines
184-203).  `ai_findings`/`ai_keywords` keep the list the source would
`json.dumps`-serialize. -/
structure SRecord where
  paper_id : List Char
  title : List Char
  authors : List Char
  published_date : List Char
  link : List Char
  summary : List Char
  ai_topic : List Char
  ai_findings : List (List Char)
  ai_methodology : List Char
  ai_significance : List Char
  ai_keywords : List (List Char)
  processed_at : List Char
  source : List Char
  metadata : MetaInfo
deriving DecidableEq

/-- The row built from a paper and its analysis
(`ingest_harvard.py` lines 184-203; `summary` is `paper["summary"][:500]`). -/
def supabaseRecord (now : List Char) (paper : Paper) (analysis : JDict) : SRecord :=
  { paper_id := paper.id,
    title := paper.title,
    authors := paper.authors,
    published_date := paper.published,
    link := paper.link,
    summary := paper.summary.take 500,
    ai_topic := analysis.getStr ("topic") [],
    ai_findings := analysis.getArr ("findings") [],
    ai_methodology := analysis.getStr ("methodology") [],
    ai_significance := analysis.getStr ("significance") [],
    ai_keywords := analysis.getArr ("keywords") [],
    processed_at := now,
    source := chars ("Harvard DASH"),
    metadata := { feed_url := DASH_RSS_FEED,
                  processed_by := chars ("harvard-pipeline"),
                  ai_model := chars ("gpt-3.5-turbo") } }

/-- The Supabase table, keyed by `paper_id`. -/
abbrev Sink := List (List Char × SRecord)

/-- `upsert(..., on_conflict="paper_id")`: replace the row with the same
key, else append a new row. -/
def Sink.upsert (s : Sink) (r : SRecord) : Sink :=
  if s.any (fun kv => kv.1 == r.paper_id) then
    s.map (fun kv => if kv.1 == r.paper_id then (kv.1, r) else kv)
  else s ++ [(r.paper_id, r)]

/-- `store_in_supabase` (`ingest_harvard.py` lines 175-221): returns the
boolean the function returns, the sink after the call, and the number of
upsert calls executed (0 when the client/upsert raised before the write,
1 when the upsert ran; `noData` is the `result.data` falsy branch of
lines 215-217, which returns `False` although the upsert ran). -/
def store_in_supabase (o : Oracles) (sink : Sink) (paper : Paper)
    (analysis : JDict) : Bool × Sink × Nat :=
  let data := supabaseRecord o.now paper analysis
  match o.storeOutcome paper analysis with
  | StoreOutcome.raise => (false, sink, 0)
  | StoreOutcome.noData => (false, Sink.upsert sink data, 1)
  | StoreOutcome.ok => (true, Sink.upsert sink data, 1)

/-- Mutable state of the per-paper loop of `main`
(`ingest_harvard.py` lines 247-266), plus instrumentation counting
AI calls and upsert calls. -/
structure LoopState where
  sink : Sink
  writes : Nat
  aiCalls : Nat
  successful : Nat
  failed : Nat

/-- One iteration of the loop of `main` (lines 251-266): analyze, count a
failure when analysis is `None`, else store and count success/failure by
the returned boolean. -/
def processPaper (o : Oracles) (st : LoopState) (p : Paper) : LoopState :=
  match analyze_paper_with_ai o p with
  | none =>
    { st with aiCalls := st.aiCalls + 1, failed := st.failed + 1 }
  | some analysis =>
    match store_in_supabase o st.sink p analysis with
    | (true, sink2, w) =>
      { st with aiCalls := st.aiCalls + 1, successful := st.successful + 1,
                sink := sink2, writes := st.writes + w }
    | (false, sink2, w) =>
      { st with aiCalls := st.aiCalls + 1, failed := st.failed + 1,
                sink := sink2, writes := st.writes + w }

/-- The whole loop of `main` over the fetched papers. -/
def processPapers (o : Oracles) : LoopState → List Paper → LoopState
  | st, [] => st
  | st, p :: ps => processPapers o (processPaper o st p) ps

/-- The loop state at the start of `main`: the given sink, all counters 0. -/
def LoopState.init (sink0 : Sink) : LoopState :=
  { sink := sink0, writes := 0, aiCalls := 0, successful := 0, failed := 0 }

/-- Observable outcome of one `main` invocation: process exit code,
final sink, counters, and whether the summary block (lines 268-279,
including the success-rate division) was reached. -/
structure RunResult where
  exitCode : Nat
  sink : Sink
  sinkWrites : Nat
  aiCalls : Nat
  feedCalls : Nat
  papersFetched : Nat
  successful : Nat
  failed : Nat
  summaryPrinted : Bool

/-- `main` (`ingest_harvard.py` lines 227-279): validate the environment
(`sys.exit(1)` on failure, before any external call), fetch papers
(return silently when there are none), run the loop, print the summary. -/
def mainDB (env : Env) (o : Oracles) (sink0 : Sink) : RunResult :=
  if validate_environment env = false then
    { exitCode := 1, sink := sink0, sinkWrites := 0, aiCalls := 0,
      feedCalls := 0, papersFetched := 0, successful := 0, failed := 0,
      summaryPrinted := false }
  else
    let papers := fetch_harvard_papers o.feed
    if papers.isEmpty then
      { exitCode := 0, sink := sink0, sinkWrites := 0, aiCalls := 0,
        feedCalls := 1, papersFetched := 0, successful := 0, failed := 0,
        summaryPrinted := false }
    else
      let r := processPapers o (LoopState.init sink0) papers
      { exitCode := 0, sink := r.sink, sinkWrites := r.writes,
        aiCalls := r.aiCalls, feedCalls := 1, papersFetched := papers.length,
        successful := r.successful, failed := r.failed, summaryPrinted := true }

/-! ## Blob variant with existence check:
`src/.github/workflows/scripts/dash_ingest.py` -/

/-- One member of `entry.links`: a MIME type and an href. -/
structure DLink where
  ltype : List Char
  href : List Char
deriving DecidableEq

/-- One feed entry of `dash_ingest.py` (only `entry.links` is read). -/
structure DEntry where
  links : List DLink
deriving DecidableEq

/-- The MIME type selected by the script. -/
def appPdf : List Char := chars ("application/pdf")

/-- `link.type == "application/pdf"` (`dash_ingest.py` line 17). -/
def isPdfLink (l : DLink) : Bool := l.ltype == appPdf

/-- `pdf_name = pdf_url.split("/")[-1]` (`dash_ingest.py` line 19). -/
def pdfName (u : List Char) : List Char := lastSegment u

/-- Observable state of a `dash_ingest.py` run: the blob names in the
container, and instrumentation counting uploads, skips, failed (non-200)
fetches, and the fetched URLs in order. -/
structure DState where
  sink : List (List Char)
  uploads : Nat
  skips : Nat
  failures : Nat
  fetched : List (List Char)
deriving DecidableEq

/-- The state at the start of a run against a container holding `sink0`. -/
def DState.init (sink0 : List (List Char)) : DState :=
  { sink := sink0, uploads := 0, skips := 0, failures := 0, fetched := [] }

/-- One PDF link of `dash_ingest.py` (lines 16-31).  The fetcher returns
`(status_code, content)` or `Except.error` for a transport exception,
which the script does not catch.  In order: existence check against the
container (skip), `requests.get` (recorded in `fetched`), status check,
upload (which raises if the blob meanwhile exists — `upload_blob` has no
`overwrite` flag) or a failure message. -/
def dashStep (fetch : List Char → Except String (Nat × List Char))
    (st : DState) (l : DLink) : Except String DState :=
  if isPdfLink l = true then
    if pdfName l.href ∈ st.sink then
      Except.ok { st with skips := st.skips + 1 }
    else
      match fetch l.href with
      | Except.error e => Except.error e
      | Except.ok (code, _) =>
        let st1 := { st with fetched := st.fetched ++ [l.href] }
        if code = 200 then
          if pdfName l.href ∈ st1.sink then
            Except.error ("blob already exists")
          else
            Except.ok { st1 with sink := st1.sink ++ [pdfName l.href],
                                 uploads := st1.uploads + 1 }
        else
          Except.ok { st1 with failures := st1.failures + 1 }
  else Except.ok st

/-- The inner `for link in entry.links` loop, over a list of links; an
uncaught exception aborts the whole run. -/
def runLinks (fetch : List Char → Except String (Nat × List Char)) :
    DState → List DLink → Except String DState
  | st, [] => Except.ok st
  | st, l :: ls =>
    match dashStep fetch st l with
    | Except.error e => Except.error e
    | Except.ok st2 => runLinks fetch st2 ls

/-- The outer `for entry in feed.entries` loop of `dash_ingest.py`. -/
def runEntries (fetch : List Char → Except String (Nat × List Char)) :
    DState → List DEntry → Except String DState
  | st, [] => Except.ok st
  | st, e :: es =>
    match runLinks fetch st e.links with
    | Except.error err => Except.error err
    | Except.ok st2 => runEntries fetch st2 es

/-- The PDF names of all eligible links of a feed, in feed order. -/
def namesOf (L : List DLink) : List (List Char) :=
  (L.filter isPdfLink).map (fun l => pdfName l.href)

/-- The hrefs of all eligible links of a list, in order. -/
def hrefsOf (L : List DLink) : List (List Char) :=
  (L.filter isPdfLink).map DLink.href

/-- Eligible PDF names of a whole feed. -/
def eligibleNames (es : List DEntry) : List (List Char) :=
  namesOf (es.flatMap DEntry.links)

/-- Eligible PDF hrefs of a whole feed. -/
def eligibleHrefs (es : List DEntry) : List (List Char) :=
  hrefsOf (es.flatMap DEntry.links)

/-- `fetch` returned a 200 response. -/
def ok200 (r : Except String (Nat × List Char)) : Bool :=
  match r with
  | Except.ok (code, _) => code == 200
  | Except.error _ => false

/-! ## Blob variant without sink existence check: `src/pipeline.py` -/

/-- One feed entry of `pipeline.py` (reads `entry.title`, `entry.link`). -/
structure PEntry where
  title : List Char
  link : List Char
deriving DecidableEq

/-- Observable state of a `pipeline.py` run: the local `downloads` folder
contents, the blob names in the container, and instrumentation counting
`requests.get` calls, `upload_blob` calls, and entries that passed the
`.pdf` filter. -/
structure PState where
  localFiles : List (List Char)
  sink : List (List Char)
  downloads : Nat
  uploads : Nat
  processed : Nat
deriving DecidableEq

/-- The empty starting state of `pipeline.py`. -/
def PState.init : PState :=
  { localFiles := [], sink := [], downloads := 0, uploads := 0, processed := 0 }

/-- `entry.title.replace(" ", "_").replace("/", "_")`
(`pipeline.py` line 35). -/
def sanitizeTitle (t : List Char) : List Char :=
  (t.map (fun c => if c = ' ' then '_' else c)).map
    (fun c => if c = '/' then '_' else c)

/-- `link.endswith(".pdf")` (`pipeline.py` line 38). -/
def pdfSuffix (link : List Char) : Bool := (chars (".pdf")).isSuffixOf link

/-- One iteration of `pipeline.py`'s loop (lines 34-62): skip non-`.pdf`
links; download (whatever the status code — the response status is never
inspected) only when the local file is absent; then always upload with
`overwrite=True` (an upsert by blob name). -/
def pipelineStep (fetchP : List Char → Nat × List Char) (st : PState)
    (e : PEntry) : PState :=
  if pdfSuffix e.link = true then
    let pdf_filename := sanitizeTitle e.title ++ chars (".pdf")
    let pdf_path := chars ("downloads/") ++ pdf_filename
    let st1 :=
      if pdf_path ∈ st.localFiles then st
      else
        let _r := fetchP e.link
        { st with downloads := st.downloads + 1,
                  localFiles := st.localFiles ++ [pdf_path] }
    { st1 with processed := st1.processed + 1, uploads := st1.uploads + 1,
               sink := if pdf_filename ∈ st1.sink then st1.sink
                       else st1.sink ++ [pdf_filename] }
  else st

/-- The `for entry in feed.entries` loop of `pipeline.py` — note there is
no batch bound: every entry of the feed is iterated. -/
def pipelineLoop (fetchP : List Char → Nat × List Char) :
    PState → List PEntry → PState
  | st, [] => st
  | st, e :: es => pipelineLoop fetchP (pipelineStep fetchP st e) es

/-- The error message of a run that dies constructing the blob client. -/
def connMsg : String := "invalid connection string"

/-- A whole `pipeline.py` invocation (lines 13-62):
`BlobServiceClient.from_connection_string` raises — before any network
call — when `AZURE_CONNECTION_STRING` is unset (`None`) or empty, killing
the process; otherwise the loop runs. -/
def pipelineRun (conn : Option (List Char))
    (fetchP : List Char → Nat × List Char) (entries : List PEntry)
    (st0 : PState) : Except String PState :=
  match conn with
  | none => Except.error (connMsg)
  | some s =>
    if s.isEmpty then Except.error (connMsg)
    else Except.ok (pipelineLoop fetchP st0 entries)

/-! ## Helper lemmas -/

/-- Each loop iteration of `main` makes exactly one AI call and increments
exactly one of the two counters. -/
theorem processPaper_counts (o : Oracles) (st : LoopState) (p : Paper) :
    (processPaper o st p).aiCalls = st.aiCalls + 1 ∧
    (processPaper o st p).successful + (processPaper o st p).failed
      = st.successful + st.failed + 1 := by
  unfold processPaper
  cases h : analyze_paper_with_ai o p with
  | none => exact ⟨by simp, by simp; omega⟩
  | some analysis =>
    rcases h2 : store_in_supabase o st.sink p analysis with ⟨b, sink2, w⟩
    cases b <;> simp [h2] <;> omega

/-- Over the whole loop: one AI call per paper, and the two counters
always sum to the number of papers handled. -/
theorem processPapers_counts (o : Oracles) :
    ∀ (papers : List Paper) (st : LoopState),
      (processPapers o st papers).aiCalls = st.aiCalls + papers.length ∧
      (processPapers o st papers).successful + (processPapers o st papers).failed
        = st.successful + st.failed + papers.length := by
  intro papers
  induction papers with
  | nil => intro st; simp [processPapers]
  | cons p ps ih =>
    intro st
    have h1 := processPaper_counts o st p
    have h2 := ih (processPaper o st p)
    simp only [processPapers, List.length_cons]
    constructor
    · omega
    · omega

/-- `processPapers_counts` specialized to the initial loop state. -/
theorem processPapers_init_counts (o : Oracles) (sink0 : Sink) (papers : List Paper) :
    (processPapers o (LoopState.init sink0) papers).successful
      + (processPapers o (LoopState.init sink0) papers).failed = papers.length ∧
    (processPapers o (LoopState.init sink0) papers).aiCalls = papers.length := by
  have h := processPapers_counts o papers (LoopState.init sink0)
  have h0s : (LoopState.init sink0).successful = 0 := rfl
  have h0f : (LoopState.init sink0).failed = 0 := rfl
  have h0a : (LoopState.init sink0).aiCalls = 0 := rfl
  omega

/-- A list with positive length is not `isEmpty`. -/
theorem isEmpty_false_of_length_pos {α : Type} {l : List α} (h : 0 < l.length) :
    l.isEmpty = false := by
  cases l
  · simp at h
  · rfl

/-! ## Concrete fixtures -/

/-- A fully populated feed entry. -/
def entry1 : Entry :=
  { title := some (chars ("A Paper")), link := some (chars ("https://x/p1")),
    summary := some (chars ("Some summary")), published := some (chars ("2025")),
    author := some (chars ("A. Author")), id := some (chars ("oai:p1")) }

/-- The paper built from `entry1`. -/
def paper1 : Paper := paperOfEntry entry1

/-- An environment with all four variables set and non-empty. -/
def env1 : Env :=
  { AZURE_AI_ENDPOINT := some (chars ("https://ai/v1")),
    AZURE_AI_KEY := some (chars ("key")),
    SUPABASE_URL := some (chars ("https://db")),
    SUPABASE_KEY := some (chars ("secret")) }

/-- An environment whose `AZURE_AI_ENDPOINT` is unset. -/
def envMissing : Env :=
  { AZURE_AI_ENDPOINT := none,
    AZURE_AI_KEY := some (chars ("key")),
    SUPABASE_URL := some (chars ("https://db")),
    SUPABASE_KEY := some (chars ("secret")) }

/-- An environment whose `AZURE_AI_KEY` is set but empty. -/
def envEmptyKey : Env :=
  { AZURE_AI_ENDPOINT := some (chars ("https://ai/v1")),
    AZURE_AI_KEY := some [],
    SUPABASE_URL := some (chars ("https://db")),
    SUPABASE_KEY := some (chars ("secret")) }

/-- Oracles: one entry, AI answers non-JSON text, store succeeds. -/
def o1 : Oracles :=
  { feed := Except.ok [entry1],
    ai := fun _ => Except.ok (chars ("not json")),
    parse := fun _ => none,
    storeOutcome := fun _ _ => StoreOutcome.ok,
    now := chars ("2025-10-12T00:00:00") }

/-- Oracles whose feed parse raised. -/
def oFeedErr : Oracles :=
  { feed := Except.error ("curl: timeout"),
    ai := fun _ => Except.ok [], parse := fun _ => none,
    storeOutcome := fun _ _ => StoreOutcome.ok, now := [] }

/-- Oracles whose AI answers the empty string. -/
def oEmptyResp : Oracles :=
  { feed := Except.ok [entry1],
    ai := fun _ => Except.ok [], parse := fun _ => none,
    storeOutcome := fun _ _ => StoreOutcome.ok, now := [] }

/-- Two PDF links with distinct names, and their one-link entries. -/
def dl1 : DLink := { ltype := appPdf, href := chars ("https://x/a.pdf") }

/-- Second PDF link. -/
def dl2 : DLink := { ltype := appPdf, href := chars ("https://x/b.pdf") }

/-- Entry carrying `dl1`. -/
def de1 : DEntry := { links := [dl1] }

/-- Entry carrying `dl2`. -/
def de2 : DEntry := { links := [dl2] }

/-- Fetcher that raises a transport exception on `dl1`'s URL. -/
def fetchBoom : List Char → Except String (Nat × List Char) :=
  fun u => if u = chars ("https://x/a.pdf") then Except.error ("boom")
           else Except.ok (200, [])

/-- Fetcher that always answers 200. -/
def fetchAll200 : List Char → Except String (Nat × List Char) :=
  fun _ => Except.ok (200, [])

/-- Total fetcher (for `pipeline.py`, whose model ignores the response). -/
def fetch200 : List Char → Nat × List Char := fun _ => (200, [])

/-! ## Claims -/

/-- Claim C6: for every item, the summary text sent to the Enricher has
length at most `MAX_TEXT_LENGTH` (8000) and the summary persisted to the
database sink has length at most 500. -/
theorem c6_truncation_bounds (p : Paper) (now : List Char) (a : JDict) :
    (ai_summary p).length ≤ MAX_TEXT_LENGTH ∧
    ((supabaseRecord now p a).summary).length ≤ 500 := by
  constructor
  · simp [ai_summary, List.length_take]
  · simp [supabaseRecord, List.length_take]

/-- Claim C10: whenever the summary block of `main` is reached,
`successful + failed` equals the number of fetched papers and that number
is positive, so the success-rate division is well-defined. -/
theorem c10_counters_invariant (env : Env) (o : Oracles) (sink0 : Sink) :
    (mainDB env o sink0).summaryPrinted = true →
    (mainDB env o sink0).successful + (mainDB env o sink0).failed
      = (mainDB env o sink0).papersFetched ∧
    0 < (mainDB env o sink0).papersFetched := by
  intro h
  cases hv : validate_environment env with
  | false => simp [mainDB, hv] at h
  | true =>
    cases hp : (fetch_harvard_papers o.feed).isEmpty with
    | true => simp [mainDB, hv, hp] at h
    | false =>
      have hc := (processPapers_init_counts o sink0 (fetch_harvard_papers o.feed)).1
      have hpos : 0 < (fetch_harvard_papers o.feed).length := by
        cases hl : fetch_harvard_papers o.feed
        · rw [hl] at hp; simp at hp
        · simp
      simp [mainDB, hv, hp]
      constructor
      · omega
      · exact hpos

/-- Claim C10 witness: the invariant at a concrete run. -/
theorem c10_witness :
    (mainDB env1 o1 []).successful + (mainDB env1 o1 []).failed
      = (mainDB env1 o1 []).papersFetched ∧
    0 < (mainDB env1 o1 []).papersFetched :=
  c10_counters_invariant env1 o1 [] (by decide)

/-- Claim C8: when the Feed Source is unreachable, raises a parse error,
or yields no entries, `main` returns gracefully: exit code 0, zero papers
processed, no AI call, no sink write, sink unchanged, no summary block. -/
theorem c8_source_error_graceful (env : Env) (o : Oracles) (sink0 : Sink) :
    validate_environment env = true →
    ((∃ m, o.feed = Except.error m) ∨ o.feed = Except.ok []) →
    (mainDB env o sink0).exitCode = 0 ∧
    (mainDB env o sink0).papersFetched = 0 ∧
    (mainDB env o sink0).sinkWrites = 0 ∧
    (mainDB env o sink0).aiCalls = 0 ∧
    (mainDB env o sink0).successful = 0 ∧
    (mainDB env o sink0).failed = 0 ∧
    (mainDB env o sink0).sink = sink0 ∧
    (mainDB env o sink0).summaryPrinted = false := by
  intro hv hfeed
  have hpapers : fetch_harvard_papers o.feed = [] := by
    rcases hfeed with ⟨m, hm⟩ | hok
    · simp [fetch_harvard_papers, hm]
    · simp [fetch_harvard_papers, hok, MAX_PAPERS_PER_RUN]
  simp [mainDB, hv, hpapers]

/-- Claim C8 witness: a run whose feed parse raised. -/
theorem c8_witness :
    (mainDB env1 oFeedErr []).exitCode = 0 ∧
    (mainDB env1 oFeedErr []).papersFetched = 0 ∧
    (mainDB env1 oFeedErr []).sinkWrites = 0 ∧
    (mainDB env1 oFeedErr []).aiCalls = 0 ∧
    (mainDB env1 oFeedErr []).successful = 0 ∧
    (mainDB env1 oFeedErr []).failed = 0 ∧
    (mainDB env1 oFeedErr []).sink = [] ∧
    (mainDB env1 oFeedErr []).summaryPrinted = false :=
  c8_source_error_graceful env1 oFeedErr [] (by decide)
    (Or.inl ⟨("curl: timeout"), rfl⟩)

/-- Claim C3 (amended): if any required setting is absent **or empty**
(Python truthiness), `main` exits 1 before contacting any external
service, and the exit code is non-zero exactly in that case — per-item
failures never produce a non-zero exit; `pipeline.py` likewise dies
before any fetch or upload when its connection string is unset. -/
theorem c3_amended_configuration :
    (∀ (env : Env) (o : Oracles) (sink0 : Sink),
      (validate_environment env = false →
        (mainDB env o sink0).exitCode = 1 ∧
        (mainDB env o sink0).feedCalls = 0 ∧
        (mainDB env o sink0).aiCalls = 0 ∧
        (mainDB env o sink0).sinkWrites = 0 ∧
        (mainDB env o sink0).sink = sink0) ∧
      ((mainDB env o sink0).exitCode ≠ 0 ↔ validate_environment env = false)) ∧
    (∀ (fetchP : List Char → Nat × List Char) (entries : List PEntry)
        (st0 : PState),
      pipelineRun none fetchP entries st0 = Except.error (connMsg)) := by
  constructor
  · intro env o sink0
    constructor
    · intro hv; simp [mainDB, hv]
    · cases hv : validate_environment env with
      | false => simp [mainDB, hv]
      | true =>
        cases hp : (fetch_harvard_papers o.feed).isEmpty with
        | true => simp [mainDB, hv, hp]
        | false => simp [mainDB, hv, hp]
  · intro fetchP entries st0; rfl

/-- Claim C3 counterexample: all four required settings are *present*
(`isSome`), yet the exit code is non-zero — `AZURE_AI_KEY` is set to the
empty string and `validate_environment`'s truthiness test rejects it, so
"non-zero only when a setting is absent" fails on the code. -/
theorem c3_counterexample :
    envEmptyKey.AZURE_AI_ENDPOINT.isSome = true ∧
    envEmptyKey.AZURE_AI_KEY.isSome = true ∧
    envEmptyKey.SUPABASE_URL.isSome = true ∧
    envEmptyKey.SUPABASE_KEY.isSome = true ∧
    (mainDB envEmptyKey o1 []).exitCode = 1 := by
  refine ⟨rfl, rfl, rfl, rfl, rfl⟩

/-- Claim C3 witness: a run with `AZURE_AI_ENDPOINT` unset exits 1 with
no external contact. -/
theorem c3_witness :
    (mainDB envMissing o1 []).exitCode = 1 ∧
    (mainDB envMissing o1 []).feedCalls = 0 ∧
    (mainDB envMissing o1 []).aiCalls = 0 ∧
    (mainDB envMissing o1 []).sinkWrites = 0 ∧
    (mainDB envMissing o1 []).sink = [] :=
  (c3_amended_configuration.1 envMissing o1 []).1 (by decide)

/-- Claim C2 (amended): in the database variant every paper is attempted
(one AI call each) and increments exactly one of the two counters, for
any oracle behaviour — no per-item error escapes the loop; but in
`dash_ingest.py` a transport error (exception) from the fetch propagates
out of the run loop, aborting the remaining items. -/
theorem c2_amended_isolation :
    (∀ (o : Oracles) (st : LoopState) (papers : List Paper),
      (processPapers o st papers).aiCalls = st.aiCalls + papers.length ∧
      (processPapers o st papers).successful + (processPapers o st papers).failed
        = st.successful + st.failed + papers.length) ∧
    (∀ (fetch : List Char → Except String (Nat × List Char)) (st : DState)
        (l : DLink) (ls : List DLink) (msg : String),
      isPdfLink l = true → pdfName l.href ∉ st.sink →
      fetch l.href = Except.error msg →
      runLinks fetch st (l :: ls) = Except.error msg) := by
  constructor
  · intro o st papers
    exact processPapers_counts o papers st
  · intro fetch st l ls msg hpdf hmem hfetch
    simp [runLinks, dashStep, hpdf, hmem, hfetch]

/-- Claim C2 counterexample: a transport error on item 1 of 2 kills the
whole `dash_ingest.py` run — item 2 is never attempted, although running
item 2 alone succeeds with an upload. -/
theorem c2_counterexample :
    runEntries fetchBoom (DState.init []) [de1, de2] =
      Except.error ("boom") ∧
    runEntries fetchBoom (DState.init []) [de2] =
      Except.ok { sink := [chars ("b.pdf")], uploads := 1, skips := 0,
                  failures := 0, fetched := [chars ("https://x/b.pdf")] } := by
  exact ⟨rfl, rfl⟩

/-- Claim C2 witness: the propagation equation at a concrete input. -/
theorem c2_witness :
    runLinks fetchBoom (DState.init []) [dl1, dl2] = Except.error ("boom") :=
  c2_amended_isolation.2 fetchBoom (DState.init []) dl1 [dl2] ("boom")
    (by decide) (by decide) rfl

/-- A run over links none of which has the PDF MIME type changes
nothing and performs no download, upload or failure record. -/
theorem runLinks_no_pdf (fetch : List Char → Except String (Nat × List Char)) :
    ∀ (ls : List DLink) (st : DState),
      ls.all (fun l => !(isPdfLink l)) = true →
      runLinks fetch st ls = Except.ok st := by
  intro ls
  induction ls with
  | nil => intro st _; rfl
  | cons l ls2 ih =>
    intro st h
    simp only [List.all_cons, Bool.and_eq_true] at h
    have hl : isPdfLink l = false := by
      cases hx : isPdfLink l
      · rfl
      · rw [hx] at h; simp at h
    simp [runLinks, dashStep, hl, ih st h.2]

/-- Claim C9: a feed entry with no PDF link is invisible: in `pipeline.py`
a non-`.pdf` link leaves the whole state unchanged (no download, no
upload, no failure record), and in `dash_ingest.py` an entry all of whose
links lack the `application/pdf` type does the same. -/
theorem c9_no_pdf_invisible :
    (∀ (fetchP : List Char → Nat × List Char) (st : PState) (e : PEntry),
      pdfSuffix e.link = false → pipelineStep fetchP st e = st) ∧
    (∀ (fetch : List Char → Except String (Nat × List Char)) (st : DState)
        (e : DEntry),
      e.links.all (fun l => !(isPdfLink l)) = true →
      runLinks fetch st e.links = Except.ok st) := by
  constructor
  · intro fetchP st e h; simp [pipelineStep, h]
  · intro fetch st e h; exact runLinks_no_pdf fetch e.links st h

/-- An entry whose link is an HTML page, for both blob variants. -/
def peNoPdf : PEntry :=
  { title := chars ("T"), link := chars ("https://x/page.html") }

/-- A `dash_ingest.py` entry with a single non-PDF link. -/
def deNoPdf : DEntry :=
  { links := [{ ltype := chars ("text/html"),
                href := chars ("https://x/page.html") }] }

/-- Claim C9 witness: both variants leave the state untouched on a
concrete non-PDF entry. -/
theorem c9_witness :
    pipelineStep fetch200 PState.init peNoPdf = PState.init ∧
    runLinks fetchAll200 (DState.init []) deNoPdf.links =
      Except.ok (DState.init []) :=
  ⟨c9_no_pdf_invisible.1 fetch200 PState.init peNoPdf (by decide),
   c9_no_pdf_invisible.2 fetchAll200 (DState.init []) deNoPdf (by decide)⟩

/-- Claim C4 (amended): on an Enricher response that is not valid
structured data, the enrichment stage does not raise and does not fail
the item: it substitutes the default dict, whose topic is non-empty,
whose findings has exactly one element, whose keywords has three
elements, and whose significance is the first 300 characters of the
stripped response text — non-empty only when that text is non-empty; the
item remains eligible to succeed at the sink-write stage. -/
theorem c4_amended_default_substitution (o : Oracles) (p : Paper)
    (txt : List Char) :
    o.ai (text_to_analyze p) = Except.ok txt →
    o.parse (pyStrip txt) = none →
    analyze_paper_with_ai o p = some (defaultAnalysis (pyStrip txt)) ∧
    ¬ (defaultAnalysis (pyStrip txt)).getStr ("topic") [] = [] ∧
    ((defaultAnalysis (pyStrip txt)).getArr ("findings") []).length = 1 ∧
    ((defaultAnalysis (pyStrip txt)).getArr ("keywords") []).length = 3 ∧
    (defaultAnalysis (pyStrip txt)).getStr ("significance") []
      = (pyStrip txt).take 300 ∧
    (¬ pyStrip txt = [] →
      ¬ (defaultAnalysis (pyStrip txt)).getStr ("significance") [] = []) ∧
    (∀ st : LoopState,
      o.storeOutcome p (defaultAnalysis (pyStrip txt)) = StoreOutcome.ok →
      (processPaper o st p).successful = st.successful + 1 ∧
      (processPaper o st p).failed = st.failed) := by
  intro hai hparse
  have hana : analyze_paper_with_ai o p = some (defaultAnalysis (pyStrip txt)) := by
    simp [analyze_paper_with_ai, hai, hparse]
  have hsig : (defaultAnalysis (pyStrip txt)).getStr ("significance") []
      = (pyStrip txt).take 300 := rfl
  have htop : (defaultAnalysis (pyStrip txt)).getStr ("topic") []
      = chars ("Academic Research") := rfl
  refine ⟨hana, by rw [htop]; decide, rfl, rfl, hsig, ?_, ?_⟩
  · intro hne
    rw [hsig]
    cases htx : pyStrip txt with
    | nil => exact absurd htx hne
    | cons a ts => simp
  · intro st hstore
    have hstep : store_in_supabase o st.sink p (defaultAnalysis (pyStrip txt))
        = (true, Sink.upsert st.sink
            (supabaseRecord o.now p (defaultAnalysis (pyStrip txt))), 1) := by
      simp [store_in_supabase, hstore]
    simp [processPaper, hana, hstep]

/-- Claim C4 counterexample: the empty Enricher response is not valid
JSON, and the substituted default's `significance` is the empty string —
the claimed "non-empty significance" fails on the code. -/
theorem c4_counterexample :
    oEmptyResp.parse (pyStrip []) = none ∧
    analyze_paper_with_ai oEmptyResp paper1 = some (defaultAnalysis []) ∧
    (defaultAnalysis []).getStr ("significance") (chars ("x")) = [] := by
  exact ⟨rfl, rfl, rfl⟩

/-- Claim C4 witness: the amended statement at a concrete non-JSON
response. -/
theorem c4_witness :
    analyze_paper_with_ai o1 paper1
      = some (defaultAnalysis (pyStrip (chars ("not json")))) ∧
    ¬ (defaultAnalysis (pyStrip (chars ("not json")))).getStr ("topic") [] = [] ∧
    ((defaultAnalysis (pyStrip (chars ("not json")))).getArr ("findings") []).length = 1 ∧
    ((defaultAnalysis (pyStrip (chars ("not json")))).getArr ("keywords") []).length = 3 ∧
    (defaultAnalysis (pyStrip (chars ("not json")))).getStr ("significance") []
      = (pyStrip (chars ("not json"))).take 300 ∧
    ¬ (defaultAnalysis (pyStrip (chars ("not json")))).getStr ("significance") [] = [] ∧
    (processPaper o1 (LoopState.init []) paper1).successful
      = (LoopState.init []).successful + 1 := by
  have h := c4_amended_default_substitution o1 paper1 (chars ("not json")) rfl rfl
  exact ⟨h.1, h.2.1, h.2.2.1, h.2.2.2.1, h.2.2.2.2.1,
         h.2.2.2.2.2.1 (by decide),
         (h.2.2.2.2.2.2 (LoopState.init []) rfl).1⟩

/-- Claim C7 (amended), `dash_ingest.py` part: a non-200 fetch marks the
item failed, performs no upload, leaves the sink unchanged and the loop
continues with the next link; `pipeline.py` part: for a `.pdf` link the
upload happens no matter what the fetch returned — the status code is
never inspected. -/
theorem c7_amended_fetch_status :
    (∀ (fetch : List Char → Except String (Nat × List Char)) (st : DState)
        (l : DLink) (ls : List DLink) (code : Nat) (body : List Char),
      isPdfLink l = true → pdfName l.href ∉ st.sink →
      fetch l.href = Except.ok (code, body) → ¬ code = 200 →
      runLinks fetch st (l :: ls) =
        runLinks fetch { st with failures := st.failures + 1,
                                 fetched := st.fetched ++ [l.href] } ls) ∧
    (∀ (fetchP : List Char → Nat × List Char) (st : PState) (e : PEntry),
      pdfSuffix e.link = true →
      (pipelineStep fetchP st e).uploads = st.uploads + 1 ∧
      sanitizeTitle e.title ++ chars (".pdf") ∈ (pipelineStep fetchP st e).sink) := by
  constructor
  · intro fetch st l ls code body hpdf hmem hfetch hcode
    simp [runLinks, dashStep, hpdf, hmem, hfetch, hcode]
  · intro fetchP st e h
    by_cases hloc : chars ("downloads/") ++ (sanitizeTitle e.title ++ chars (".pdf"))
        ∈ st.localFiles
    · by_cases hsink : sanitizeTitle e.title ++ chars (".pdf") ∈ st.sink <;>
        simp [pipelineStep, h, hloc, hsink]
    · by_cases hsink : sanitizeTitle e.title ++ chars (".pdf") ∈ st.sink <;>
        simp [pipelineStep, h, hloc, hsink]

/-- An entry whose link ends in `.pdf`, to feed a failing fetcher. -/
def pe404 : PEntry := { title := chars ("T"), link := chars ("https://x/d.pdf") }

/-- A fetcher answering 404 with an error page body. -/
def fetch404 : List Char → Nat × List Char :=
  fun _ => (404, chars ("not found"))

/-- Claim C7 counterexample: in `pipeline.py` the fetch returns 404, yet
the item is downloaded and *uploaded to the sink* — the claimed
"non-success status ⇒ no sink write" fails on the code. -/
theorem c7_counterexample :
    fetch404 pe404.link = (404, chars ("not found")) ∧
    (pipelineStep fetch404 PState.init pe404).uploads = 1 ∧
    (pipelineStep fetch404 PState.init pe404).downloads = 1 ∧
    (pipelineStep fetch404 PState.init pe404).sink = [chars ("T.pdf")] := by
  exact ⟨rfl, rfl, rfl, rfl⟩

/-- A link whose fetch will answer 500. -/
def dl3 : DLink := { ltype := appPdf, href := chars ("https://x/c.pdf") }

/-- A fetcher answering 500 on every URL. -/
def fetch500 : List Char → Except String (Nat × List Char) :=
  fun _ => Except.ok (500, [])

/-- Claim C7 witness: both amended conjuncts at concrete inputs. -/
theorem c7_witness :
    runLinks fetch500 (DState.init []) [dl3, dl2] =
      runLinks fetch500 { DState.init [] with
                          failures := (DState.init []).failures + 1,
                          fetched := (DState.init []).fetched
                            ++ [dl3.href] } [dl2] ∧
    (pipelineStep fetch404 PState.init pe404).uploads
      = PState.init.uploads + 1 ∧
    sanitizeTitle pe404.title ++ chars (".pdf")
      ∈ (pipelineStep fetch404 PState.init pe404).sink :=
  ⟨c7_amended_fetch_status.1 fetch500 (DState.init []) dl3 [dl2] 500 []
     (by decide) (by decide) rfl (by decide),
   c7_amended_fetch_status.2 fetch404 PState.init pe404 (by decide)⟩

/-- One `pipeline.py` iteration bumps `processed` exactly when the link
ends in `.pdf`. -/
theorem pipelineStep_processed (fetchP : List Char → Nat × List Char)
    (st : PState) (e : PEntry) :
    (pipelineStep fetchP st e).processed
      = st.processed + (if pdfSuffix e.link = true then 1 else 0) := by
  by_cases h : pdfSuffix e.link = true
  · by_cases hloc : chars ("downloads/") ++ (sanitizeTitle e.title ++ chars (".pdf"))
        ∈ st.localFiles <;> simp [pipelineStep, h, hloc]
  · simp [pipelineStep, h]

/-- `pipeline.py` has no batch bound: the loop handles every `.pdf`
entry of the feed, however long. -/
theorem pipelineLoop_processed (fetchP : List Char → Nat × List Char) :
    ∀ (es : List PEntry) (st : PState),
      (pipelineLoop fetchP st es).processed
        = st.processed + (es.filter (fun e => pdfSuffix e.link)).length := by
  intro es
  induction es with
  | nil => intro st; simp [pipelineLoop]
  | cons e es2 ih =>
    intro st
    simp only [pipelineLoop]
    rw [ih, pipelineStep_processed]
    by_cases h : pdfSuffix e.link = true
    · simp [List.filter_cons, h]; omega
    · simp only [Bool.not_eq_true] at h
      simp [List.filter_cons, h]

/-- Claim C5 (amended): the database variant fetches exactly the first
`MAX_PAPERS_PER_RUN` (10) feed entries, in feed order, when the feed is
longer, and `main` processes exactly those; `pipeline.py` has no batch
bound at all — every `.pdf` entry of the feed is processed. -/
theorem c5_amended_batch_bound :
    (∀ (es : List Entry), MAX_PAPERS_PER_RUN < es.length →
      fetch_harvard_papers (Except.ok es)
        = (es.take MAX_PAPERS_PER_RUN).map paperOfEntry ∧
      (fetch_harvard_papers (Except.ok es)).length = MAX_PAPERS_PER_RUN) ∧
    (∀ (env : Env) (o : Oracles) (sink0 : Sink) (es : List Entry),
      validate_environment env = true → o.feed = Except.ok es →
      MAX_PAPERS_PER_RUN < es.length →
      (mainDB env o sink0).papersFetched = MAX_PAPERS_PER_RUN ∧
      (mainDB env o sink0).aiCalls = MAX_PAPERS_PER_RUN) ∧
    (∀ (fetchP : List Char → Nat × List Char) (st : PState)
        (es : List PEntry),
      (pipelineLoop fetchP st es).processed
        = st.processed + (es.filter (fun e => pdfSuffix e.link)).length) := by
  have hfetch : ∀ (es : List Entry), MAX_PAPERS_PER_RUN < es.length →
      fetch_harvard_papers (Except.ok es)
        = (es.take MAX_PAPERS_PER_RUN).map paperOfEntry ∧
      (fetch_harvard_papers (Except.ok es)).length = MAX_PAPERS_PER_RUN := by
    intro es hlen
    have hne : es.isEmpty = false := isEmpty_false_of_length_pos (by omega)
    have h1 : fetch_harvard_papers (Except.ok es)
        = (es.take MAX_PAPERS_PER_RUN).map paperOfEntry := by
      simp [fetch_harvard_papers, hne]
    refine ⟨h1, ?_⟩
    rw [h1]
    simp [List.length_take]
    omega
  refine ⟨hfetch, ?_, ?_⟩
  · intro env o sink0 es hv hfeed hlen
    have h1 := hfetch es hlen
    have h10 : (fetch_harvard_papers o.feed).length = MAX_PAPERS_PER_RUN := by
      rw [hfeed]; exact h1.2
    have hne : (fetch_harvard_papers o.feed).isEmpty = false :=
      isEmpty_false_of_length_pos (by rw [h10]; decide)
    have hai := (processPapers_init_counts o sink0 (fetch_harvard_papers o.feed)).2
    simp [mainDB, hv, hne]
    exact ⟨h10, by omega⟩
  · intro fetchP st es
    exact pipelineLoop_processed fetchP es st

/-- A `.pdf`-linked entry named by one letter. -/
def mkPE (s : String) : PEntry :=
  { title := chars s, link := chars s ++ chars (".pdf") }

/-- Eleven distinct `.pdf` entries — one more than `MAX_PAPERS_PER_RUN`. -/
def feed11 : List PEntry :=
  [mkPE ("a"), mkPE ("b"), mkPE ("c"), mkPE ("d"), mkPE ("e"), mkPE ("f"),
   mkPE ("g"), mkPE ("h"), mkPE ("i"), mkPE ("j"), mkPE ("k")]

/-- Claim C5 counterexample: `pipeline.py` on a feed of 11 PDF entries
processes and uploads all 11 — not "exactly the configured maximum"
(10): it has no batch bound. -/
theorem c5_counterexample :
    feed11.length = 11 ∧ MAX_PAPERS_PER_RUN = 10 ∧
    pipelineRun (some (chars ("conn"))) fetch200 feed11 PState.init
      = Except.ok (pipelineLoop fetch200 PState.init feed11) ∧
    (pipelineLoop fetch200 PState.init feed11).processed = 11 ∧
    (pipelineLoop fetch200 PState.init feed11).uploads = 11 := by
  refine ⟨rfl, rfl, rfl, ?_, ?_⟩ <;> decide

/-- A feed of 11 identical entries for the database variant. -/
def es11 : List Entry := List.replicate 11 entry1

/-- Oracles carrying the 11-entry feed. -/
def o11 : Oracles :=
  { feed := Except.ok es11,
    ai := fun _ => Except.ok (chars ("not json")),
    parse := fun _ => none,
    storeOutcome := fun _ _ => StoreOutcome.ok,
    now := [] }

/-- Claim C5 witness: at a feed of 11 entries the database variant
fetches and processes exactly 10. -/
theorem c5_witness :
    fetch_harvard_papers (Except.ok es11)
      = (es11.take MAX_PAPERS_PER_RUN).map paperOfEntry ∧
    (fetch_harvard_papers (Except.ok es11)).length = MAX_PAPERS_PER_RUN ∧
    (mainDB env1 o11 []).papersFetched = MAX_PAPERS_PER_RUN ∧
    (mainDB env1 o11 []).aiCalls = MAX_PAPERS_PER_RUN :=
  ⟨(c5_amended_batch_bound.1 es11 (by decide)).1,
   (c5_amended_batch_bound.1 es11 (by decide)).2,
   (c5_amended_batch_bound.2.1 env1 o11 [] es11 (by decide) rfl (by decide)).1,
   (c5_amended_batch_bound.2.1 env1 o11 [] es11 (by decide) rfl (by decide)).2⟩

/-- Splitting a link run at an append point. -/
theorem runLinks_append (fetch : List Char → Except String (Nat × List Char))
    (L1 L2 : List DLink) : ∀ st : DState,
    runLinks fetch st (L1 ++ L2) =
      match runLinks fetch st L1 with
      | Except.error e => Except.error e
      | Except.ok st2 => runLinks fetch st2 L2 := by
  induction L1 with
  | nil => intro st; simp [runLinks]
  | cons l ls ih =>
    intro st
    simp only [List.cons_append, runLinks]
    cases h : dashStep fetch st l with
    | error e => simp
    | ok st2 => simp [ih st2]

/-- The entry loop of `dash_ingest.py` equals the link loop over the
flattened link list. -/
theorem runEntries_eq_runLinks
    (fetch : List Char → Except String (Nat × List Char)) :
    ∀ (es : List DEntry) (st : DState),
      runEntries fetch st es = runLinks fetch st (es.flatMap DEntry.links) := by
  intro es
  induction es with
  | nil => intro st; simp [runEntries, runLinks]
  | cons e es2 ih =>
    intro st
    simp only [runEntries, List.flatMap_cons]
    rw [runLinks_append]
    cases h : runLinks fetch st e.links with
    | error err => simp
    | ok st2 => simp [ih st2]

/-- First-run lemma for `dash_ingest.py`: over links whose PDF names are
fresh (none in the sink) and pairwise distinct, with every fetch
answering 200, the run uploads exactly the eligible names in order,
records exactly the eligible hrefs as fetched, and never skips or
fails. -/
theorem runLinks_fresh (fetch : List Char → Except String (Nat × List Char)) :
    ∀ (L : List DLink) (st : DState),
      (namesOf L).Nodup →
      (∀ n, n ∈ namesOf L → n ∉ st.sink) →
      (∀ l, l ∈ L → isPdfLink l = true → ok200 (fetch l.href) = true) →
      runLinks fetch st L =
        Except.ok { sink := st.sink ++ namesOf L,
                    uploads := st.uploads + (namesOf L).length,
                    skips := st.skips, failures := st.failures,
                    fetched := st.fetched ++ hrefsOf L } := by
  intro L
  induction L with
  | nil =>
    intro st _ _ _
    simp [runLinks, namesOf, hrefsOf]
  | cons l ls ih =>
    intro st hnd hdisj hok
    by_cases hpl : isPdfLink l = true
    · have hnames : namesOf (l :: ls) = pdfName l.href :: namesOf ls := by
        simp [namesOf, List.filter_cons, hpl]
      have hhrefs : hrefsOf (l :: ls) = l.href :: hrefsOf ls := by
        simp [hrefsOf, List.filter_cons, hpl]
      have hmem : pdfName l.href ∉ st.sink := by
        apply hdisj; rw [hnames]; exact List.mem_cons_self _ _
      have hfok := hok l (List.mem_cons_self _ _) hpl
      rcases hf : fetch l.href with msg | pr
      · rw [hf] at hfok; simp [ok200] at hfok
      · rcases pr with ⟨code, body⟩
        rw [hf] at hfok
        have hcode : code = 200 := by simpa [ok200] using hfok
        subst hcode
        have hstep : dashStep fetch st l =
            Except.ok { st with fetched := st.fetched ++ [l.href],
                                sink := st.sink ++ [pdfName l.href],
                                uploads := st.uploads + 1 } := by
          simp [dashStep, hpl, hmem, hf]
        rw [hnames] at hnd hdisj
        have hnd2 : (namesOf ls).Nodup := (List.nodup_cons.mp hnd).2
        have hhead : pdfName l.href ∉ namesOf ls := (List.nodup_cons.mp hnd).1
        have hdisj2 : ∀ n, n ∈ namesOf ls →
            n ∉ ({ st with fetched := st.fetched ++ [l.href],
                           sink := st.sink ++ [pdfName l.href],
                           uploads := st.uploads + 1 } : DState).sink := by
          intro n hn
          simp only [List.mem_append, List.mem_singleton, not_or]
          constructor
          · exact hdisj n (List.mem_cons_of_mem _ hn)
          · intro heq; exact hhead (heq ▸ hn)
        have hok2 : ∀ l2, l2 ∈ ls → isPdfLink l2 = true →
            ok200 (fetch l2.href) = true :=
          fun l2 h2 hp2 => hok l2 (List.mem_cons_of_mem _ h2) hp2
        simp only [runLinks, hstep]
        rw [ih _ hnd2 hdisj2 hok2, hnames, hhrefs]
        simp [List.append_assoc, Nat.add_assoc, Nat.add_comm, Nat.add_left_comm]
    · have hpl2 : isPdfLink l = false := by simpa using hpl
      have hnames : namesOf (l :: ls) = namesOf ls := by
        simp [namesOf, List.filter_cons, hpl2]
      have hhrefs : hrefsOf (l :: ls) = hrefsOf ls := by
        simp [hrefsOf, List.filter_cons, hpl2]
      have hstep : dashStep fetch st l = Except.ok st := by
        simp [dashStep, hpl2]
      rw [hnames] at hnd hdisj
      have hok2 : ∀ l2, l2 ∈ ls → isPdfLink l2 = true →
          ok200 (fetch l2.href) = true :=
        fun l2 h2 hp2 => hok l2 (List.mem_cons_of_mem _ h2) hp2
      simp only [runLinks, hstep]
      rw [ih st hnd hdisj hok2, hnames, hhrefs]

/-- Second-run lemma for `dash_ingest.py`: when every eligible PDF name
is already in the sink, every item is skipped by the existence check —
no fetch, no upload, no failure, sink unchanged. -/
theorem runLinks_all_present
    (fetch : List Char → Except String (Nat × List Char)) :
    ∀ (L : List DLink) (st : DState),
      (∀ n, n ∈ namesOf L → n ∈ st.sink) →
      runLinks fetch st L =
        Except.ok { st with skips := st.skips + (namesOf L).length } := by
  intro L
  induction L with
  | nil => intro st _; simp [runLinks, namesOf]
  | cons l ls ih =>
    intro st hall
    by_cases hpl : isPdfLink l = true
    · have hnames : namesOf (l :: ls) = pdfName l.href :: namesOf ls := by
        simp [namesOf, List.filter_cons, hpl]
      rw [hnames] at hall
      have hmem : pdfName l.href ∈ st.sink := hall _ (List.mem_cons_self _ _)
      have hstep : dashStep fetch st l =
          Except.ok { st with skips := st.skips + 1 } := by
        simp [dashStep, hpl, hmem]
      have hall2 : ∀ n, n ∈ namesOf ls →
          n ∈ ({ st with skips := st.skips + 1 } : DState).sink :=
        fun n hn => hall n (List.mem_cons_of_mem _ hn)
      simp only [runLinks, hstep]
      rw [ih _ hall2, hnames]
      simp [Nat.add_assoc, Nat.add_comm, Nat.add_left_comm]
    · have hpl2 : isPdfLink l = false := by simpa using hpl
      have hnames : namesOf (l :: ls) = namesOf ls := by
        simp [namesOf, List.filter_cons, hpl2]
      rw [hnames] at hall
      have hstep : dashStep fetch st l = Except.ok st := by
        simp [dashStep, hpl2]
      simp only [runLinks, hstep]
      rw [ih st hall, hnames]

/-- Claim C1 (amended): `dash_ingest.py` is idempotent — from an empty
sink, with distinct eligible PDF names and all fetches succeeding, the
first run uploads exactly the eligible items and the second run performs
zero uploads and zero fetches, skipping every item at the existence
check.  The database variant has no existence check: on its second run
over the same one-item feed it calls the AI and upserts again (one
write), though the keyed upsert leaves the record count at 1. -/
theorem c1_amended_idempotency :
    (∀ (fetch : List Char → Except String (Nat × List Char))
        (es : List DEntry),
      (eligibleNames es).Nodup →
      (∀ l, l ∈ es.flatMap DEntry.links → isPdfLink l = true →
        ok200 (fetch l.href) = true) →
      runEntries fetch (DState.init []) es =
        Except.ok { sink := eligibleNames es,
                    uploads := (eligibleNames es).length,
                    skips := 0, failures := 0,
                    fetched := eligibleHrefs es } ∧
      runEntries fetch (DState.init (eligibleNames es)) es =
        Except.ok { sink := eligibleNames es, uploads := 0,
                    skips := (eligibleNames es).length, failures := 0,
                    fetched := [] }) ∧
    (((mainDB env1 o1 []).sink).length = 1 ∧
     (mainDB env1 o1 ((mainDB env1 o1 []).sink)).sinkWrites = 1 ∧
     (mainDB env1 o1 ((mainDB env1 o1 []).sink)).aiCalls = 1 ∧
     ((mainDB env1 o1 ((mainDB env1 o1 []).sink)).sink).length = 1) := by
  constructor
  · intro fetch es hnd hok
    constructor
    · rw [runEntries_eq_runLinks]
      have h := runLinks_fresh fetch (es.flatMap DEntry.links) (DState.init [])
        hnd (by intro n hn; simp [DState.init]) hok
      rw [h]
      simp [DState.init, eligibleNames, eligibleHrefs]
    · rw [runEntries_eq_runLinks]
      have h := runLinks_all_present fetch (es.flatMap DEntry.links)
        (DState.init (eligibleNames es))
        (by intro n hn; simpa [DState.init, eligibleNames] using hn)
      rw [h]
      simp [DState.init, eligibleNames]
  · exact ⟨rfl, rfl, rfl, rfl⟩

/-- Claim C1 counterexample: in the database variant there is no sink
existence check at all — on the second run over the same feed snapshot,
the item already present at the sink is *not* skipped: the run makes one
AI call and one further sink write (an upsert), so "zero additional sink
writes, skipped before any fetch" fails on the code. -/
theorem c1_counterexample :
    ((mainDB env1 o1 []).sink).length = 1 ∧
    ¬ (mainDB env1 o1 ((mainDB env1 o1 []).sink)).sinkWrites = 0 ∧
    ¬ (mainDB env1 o1 ((mainDB env1 o1 []).sink)).aiCalls = 0 := by
  refine ⟨rfl, by decide, by decide⟩

/-- The two-entry `dash_ingest.py` feed for the C1 witness. -/
def dfeed : List DEntry := [de1, de2]

/-- Claim C1 witness: both runs of the amended statement at a concrete
two-item feed with an all-200 fetcher. -/
theorem c1_witness :
    runEntries fetchAll200 (DState.init []) dfeed =
      Except.ok { sink := eligibleNames dfeed,
                  uploads := (eligibleNames dfeed).length,
                  skips := 0, failures := 0,
                  fetched := eligibleHrefs dfeed } ∧
    runEntries fetchAll200 (DState.init (eligibleNames dfeed)) dfeed =
      Except.ok { sink := eligibleNames dfeed, uploads := 0,
                  skips := (eligibleNames dfeed).length, failures := 0,
                  fetched := [] } :=
  c1_amended_idempotency.1 fetchAll200 dfeed (by decide) (by decide)
